import Mathlib

/-!
Verification of the SmartForm form-filling pipeline.

The JavaScript sources are shallowly embedded here: strings are `String`,
JavaScript objects become structures, and every call to `Math.random()`
consumes one draw from an explicit source `RS`. A draw is a nonnegative
rational represented as an explicit fraction of naturals (every value
Math.random() can return is such a rational); a draw from a valid source
lies in the interval from 0 inclusive to 1 exclusive, exactly like
Math.random(). When a source runs out of draws the model supplies 0,
which is itself a legal value of Math.random(), so the model never
leaves the set of reachable behaviours.
-/

set_option maxHeartbeats 1000000
set_option maxRecDepth 100000

/-- A nonnegative rational num / den, the value of one Math.random() draw. -/
structure Frac where
  num : ℕ
  den : ℕ
  deriving DecidableEq, Repr

/-- A draw is valid when it lies in the unit interval, 0 inclusive to 1
exclusive: num strictly below den (which forces den positive). -/
def Frac.valid (q : Frac) : Prop := q.num < q.den

/-- Math.floor of the draw times a natural number n, the index
computation Math.floor applied to Math.random() times n. -/
def Frac.mulFloor (q : Frac) (n : ℕ) : ℕ := q.num * n / q.den

/-- Comparison of the draw with the rational a / b: the test
Math.random() strictly below a threshold. -/
def Frac.ltRat (q : Frac) (a b : ℕ) : Bool := decide (q.num * b < a * q.den)

/-- Comparison of the draw with the rational a / b: the test
Math.random() strictly above a threshold. -/
def Frac.gtRat (q : Frac) (a b : ℕ) : Bool := decide (q.num * b > a * q.den)

/-- Source of randomness: the successive values returned by Math.random(). -/
abbrev RS := List Frac

/-- Take the next Math.random() draw from the source (0 when exhausted). -/
def RS.next : RS → Frac × RS
  | [] => (⟨0, 1⟩, [])
  | q :: qs => (q, qs)

/-- A valid source only contains values that Math.random() can return. -/
def validRS (s : RS) : Prop := ∀ q ∈ s, q.valid

instance (q : Frac) : Decidable q.valid := by
  unfold Frac.valid
  infer_instance

instance (s : RS) : Decidable (validRS s) := by
  unfold validRS
  exact List.decidableBAll _ s

/-- Lowercasing as in String.prototype.toLowerCase (ASCII letters). -/
def jsToLower (s : String) : String := String.mk (s.data.map Char.toLower)

/-- Trimming as in String.prototype.trim. -/
def jsTrim (s : String) : String :=
  String.mk (((s.data.dropWhile Char.isWhitespace).reverse.dropWhile Char.isWhitespace).reverse)

/-- Test whether the second list starts the first. -/
def listStartsWith : List Char → List Char → Bool
  | _, [] => true
  | [], _ :: _ => false
  | a :: as, b :: bs => a == b && listStartsWith as bs

/-- Test whether the second list occurs contiguously inside the first. -/
def listHasInfix (s sub : List Char) : Bool :=
  match s with
  | [] => listStartsWith [] sub
  | _ :: tl => listStartsWith s sub || listHasInfix tl sub

/-- Substring test as in String.prototype.includes. -/
def strContains (s sub : String) : Bool := listHasInfix s.data sub.data

/-- Splitting on a single character as in String.prototype.split. -/
def splitOnChar (c : Char) : List Char → List (List Char)
  | [] => [[]]
  | x :: xs =>
    let r := splitOnChar c xs
    if x == c then [] :: r
    else
      match r with
      | [] => [[x]]
      | h :: t => (x :: h) :: t

/-- Split a string on single spaces, as value.split applied to a space. -/
def jsSplitSpace (s : String) : List String := (splitOnChar ' ' s.data).map String.mk

/-- Collapse runs of whitespace into single spaces, the effect of the
regex replacement of one-or-more whitespace by a space. -/
def collapseWsAux : List Char → Bool → List Char
  | [], _ => []
  | c :: cs, prevWs =>
    if c.isWhitespace then
      if prevWs then collapseWsAux cs true else ' ' :: collapseWsAux cs true
    else c :: collapseWsAux cs false

/-- Collapse whitespace runs in a string to single spaces. -/
def collapseWs (s : String) : String := String.mk (collapseWsAux s.data false)

/-- Remove the maximal trailing run of asterisk and colon characters,
the effect of the regex replacement anchored at the end of the string. -/
def stripTrailingMarks (s : String) : String :=
  String.mk ((s.data.reverse.dropWhile (fun c => c == '*' || c == ':')).reverse)

/-- Zero-padding to two characters as in padStart applied with 2 and the
zero character. -/
def pad2 (n : ℕ) : String := if n < 10 then "0" ++ toString n else toString n

/-- The filtered nonblank options of a list, the validOptions local of
randomOption. -/
def validOptionsOf (options : List String) : List String :=
  options.filter (fun opt => jsTrim opt != "")

/-- The placeholder test of randomOption on the lowercased first valid
option: contains select, choose or a double dash, or is empty or
shorter than 2 characters. -/
def looksPlaceholder (firstOption : String) : Bool :=
  strContains firstOption "select" || strContains firstOption "choose" ||
  strContains firstOption "--" || firstOption == "" ||
  decide (firstOption.length < 2)

namespace RandomDataGenerator

/-- Embedding of RandomDataGenerator.pick: array indexed at
Math.floor of Math.random() times the length. -/
def pick {α : Type} [Inhabited α] (arr : List α) (s : RS) : α × RS :=
  let (q, s1) := RS.next s
  (arr.getD (q.mulFloor arr.length) default, s1)

/-- Embedding of RandomDataGenerator.randomInt. -/
def randomInt (lo hi : ℕ) (s : RS) : ℕ × RS :=
  let (q, s1) := RS.next s
  (q.mulFloor (hi - lo + 1) + lo, s1)

/-- Embedding of RandomDataGenerator.randomBoolean: Math.random() above one half. -/
def randomBoolean (s : RS) : Bool × RS :=
  let (q, s1) := RS.next s
  (q.gtRat 5 10, s1)

/-- Embedding of RandomDataGenerator.randomDigits: concatenation of
single random digits, leftmost drawn first. -/
def randomDigits : ℕ → RS → String × RS
  | 0, s => ("", s)
  | n + 1, s =>
    let (d, s1) := randomInt 0 9 s
    let (rest, s2) := randomDigits n s1
    (toString d ++ rest, s2)

/-- Embedding of RandomDataGenerator.matches: does the text include any keyword. -/
def matchesAny (text : String) (keywords : List String) : Bool :=
  keywords.any (fun keyword => strContains text keyword)

/-- Embedding of RandomDataGenerator.randomEmail. -/
def randomEmail (s : RS) : String × RS :=
  let firstNames := ["john", "jane", "michael", "sarah", "david", "emily", "robert", "lisa", "james", "maria"]
  let lastNames := ["smith", "johnson", "williams", "brown", "jones", "garcia", "miller", "davis", "wilson", "moore"]
  let domains := ["example.com", "test.com", "demo.com", "sample.com", "mail.com"]
  let (firstName, s1) := pick firstNames s
  let (lastName, s2) := pick lastNames s1
  let (domain, s3) := pick domains s2
  let (separator, s4) := pick [".", "_", ""] s3
  let (b, s5) := randomBoolean s4
  let (number, s6) :=
    if b then
      let (n, s6) := randomInt 1 99 s5
      (toString n, s6)
    else ("", s5)
  (firstName ++ separator ++ lastName ++ number ++ "@" ++ domain, s6)

/-- Embedding of RandomDataGenerator.randomPhone: all four format strings
are built (consuming digit draws in order) and then one is picked. -/
def randomPhone (s : RS) : String × RS :=
  let (a1, s1) := randomDigits 3 s
  let (b1, s2) := randomDigits 3 s1
  let (c1, s3) := randomDigits 4 s2
  let f1 := "+1 (" ++ a1 ++ ") " ++ b1 ++ "-" ++ c1
  let (a2, s4) := randomDigits 3 s3
  let (b2, s5) := randomDigits 3 s4
  let (c2, s6) := randomDigits 4 s5
  let f2 := a2 ++ "-" ++ b2 ++ "-" ++ c2
  let (a3, s7) := randomDigits 3 s6
  let (b3, s8) := randomDigits 3 s7
  let (c3, s9) := randomDigits 4 s8
  let f3 := "(" ++ a3 ++ ") " ++ b3 ++ "-" ++ c3
  let (a4, s10) := randomDigits 3 s9
  let (b4, s11) := randomDigits 3 s10
  let (c4, s12) := randomDigits 4 s11
  let f4 := "+1-" ++ a4 ++ "-" ++ b4 ++ "-" ++ c4
  pick [f1, f2, f3, f4] s12

/-- Embedding of RandomDataGenerator.randomFirstName. -/
def randomFirstName (s : RS) : String × RS :=
  pick ["John", "Jane", "Michael", "Sarah", "David", "Emily",
        "Robert", "Lisa", "William", "Jennifer", "James", "Mary",
        "Christopher", "Patricia", "Daniel", "Jessica", "Matthew", "Ashley"] s

/-- Embedding of RandomDataGenerator.randomMiddleName. -/
def randomMiddleName (s : RS) : String × RS :=
  pick ["Lee", "Marie", "Ann", "Ray", "Lynn", "James", "Rose", "Grace"] s

/-- Embedding of RandomDataGenerator.randomLastName. -/
def randomLastName (s : RS) : String × RS :=
  pick ["Smith", "Johnson", "Williams", "Brown", "Jones", "Garcia",
        "Miller", "Davis", "Rodriguez", "Martinez", "Wilson", "Anderson",
        "Taylor", "Thomas", "Moore", "Jackson", "Martin", "Lee"] s

/-- Embedding of RandomDataGenerator.randomFullName. -/
def randomFullName (s : RS) : String × RS :=
  let (fn, s1) := randomFirstName s
  let (ln, s2) := randomLastName s1
  (fn ++ " " ++ ln, s2)

/-- Embedding of RandomDataGenerator.randomUsername. -/
def randomUsername (s : RS) : String × RS :=
  let (firstName, s1) := pick ["john", "jane", "mike", "sarah", "david", "emily"] s
  let (sfx, s2) := pick ["dev", "tech", "pro", "user", ""] s1
  let (number, s3) := randomInt 100 999 s2
  (if sfx != "" then firstName ++ "_" ++ sfx ++ toString number
   else firstName ++ toString number, s3)

/-- Embedding of RandomDataGenerator.randomAddress. -/
def randomAddress (s : RS) : String × RS :=
  let (numbers, s1) := randomInt 100 9999 s
  let (street, s2) := pick ["Main St", "Oak Ave", "Maple Dr", "Park Ln", "Elm St",
                            "Cedar Rd", "Washington Blvd", "Lake View Dr", "Hill St", "River Rd"] s1
  (toString numbers ++ " " ++ street, s2)

/-- Embedding of RandomDataGenerator.randomApartment: a 30 percent chance
of the empty string. -/
def randomApartment (s : RS) : String × RS :=
  let (ty, s1) := pick ["Apt", "Suite", "Unit", "#"] s
  let (number, s2) := randomInt 1 500 s1
  let (q, s3) := RS.next s2
  (if q.gtRat 3 10 then ty ++ " " ++ toString number else "", s3)

/-- Embedding of RandomDataGenerator.randomCity. -/
def randomCity (s : RS) : String × RS :=
  pick ["New York", "Los Angeles", "Chicago", "Houston", "Phoenix",
        "Philadelphia", "San Antonio", "San Diego", "Dallas", "Austin",
        "San Jose", "Seattle", "Denver", "Boston", "Portland"] s

/-- Embedding of RandomDataGenerator.randomState. -/
def randomState (s : RS) : String × RS :=
  pick ["California", "Texas", "Florida", "New York", "Pennsylvania",
        "Illinois", "Ohio", "Georgia", "Michigan", "North Carolina",
        "Washington", "Arizona", "Massachusetts", "Tennessee", "Indiana"] s

/-- Embedding of RandomDataGenerator.randomZip. -/
def randomZip (s : RS) : String × RS := randomDigits 5 s

/-- Embedding of RandomDataGenerator.randomCountry. -/
def randomCountry (s : RS) : String × RS :=
  pick ["United States", "Canada", "United Kingdom", "Australia",
        "Germany", "France", "Italy", "Spain", "Netherlands", "Sweden"] s

/-- Embedding of RandomDataGenerator.randomCompany. -/
def randomCompany (s : RS) : String × RS :=
  let (p, s1) := pick ["Global", "Dynamic", "Smart", "Tech", "Digital", "Innovative", "Advanced", "Premier"] s
  let (q, s2) := pick ["Solutions", "Systems", "Industries", "Corporation", "Group", "Technologies", "Enterprises", "Services"] s1
  (p ++ " " ++ q, s2)

/-- Embedding of RandomDataGenerator.randomJobTitle. -/
def randomJobTitle (s : RS) : String × RS :=
  pick ["Software Engineer", "Product Manager", "Data Analyst", "UX Designer",
        "Marketing Specialist", "Sales Representative", "Project Manager",
        "Business Analyst", "DevOps Engineer", "Content Writer",
        "Customer Success Manager", "Accountant", "HR Specialist"] s

/-- Embedding of RandomDataGenerator.randomDepartment. -/
def randomDepartment (s : RS) : String × RS :=
  pick ["Engineering", "Marketing", "Sales", "HR", "Finance", "Operations", "Product", "Customer Support"] s

/-- Embedding of RandomDataGenerator.randomWebsite. -/
def randomWebsite (s : RS) : String × RS :=
  let (n, s1) := pick ["mycompany", "example", "demo", "test", "sample", "mybusiness"] s
  let (t, s2) := pick ["com", "net", "org", "io"] s1
  ("https://www." ++ n ++ "." ++ t, s2)

/-- Embedding of RandomDataGenerator.randomLinkedIn. -/
def randomLinkedIn (s : RS) : String × RS :=
  let (u, s1) := randomUsername s
  ("https://linkedin.com/in/" ++ u, s1)

/-- Embedding of RandomDataGenerator.randomTwitter. -/
def randomTwitter (s : RS) : String × RS :=
  let (u, s1) := randomUsername s
  ("https://twitter.com/" ++ u, s1)

/-- Embedding of RandomDataGenerator.randomGitHub. -/
def randomGitHub (s : RS) : String × RS :=
  let (u, s1) := randomUsername s
  ("https://github.com/" ++ u, s1)

/-- Embedding of RandomDataGenerator.randomGender. -/
def randomGender (s : RS) : String × RS :=
  pick ["Male", "Female", "Other", "Prefer not to say"] s

/-- Embedding of RandomDataGenerator.randomBirthDate. -/
def randomBirthDate (s : RS) : String × RS :=
  let (year, s1) := randomInt 1960 2005 s
  let (month, s2) := randomInt 1 12 s1
  let (day, s3) := randomInt 1 28 s2
  (toString year ++ "-" ++ pad2 month ++ "-" ++ pad2 day, s3)

/-- Embedding of RandomDataGenerator.randomRecentDate. -/
def randomRecentDate (s : RS) : String × RS :=
  let (year, s1) := randomInt 2022 2025 s
  let (month, s2) := randomInt 1 12 s1
  let (day, s3) := randomInt 1 28 s2
  (toString year ++ "-" ++ pad2 month ++ "-" ++ pad2 day, s3)

/-- Embedding of RandomDataGenerator.randomTime. -/
def randomTime (s : RS) : String × RS :=
  let (hour, s1) := randomInt 8 18 s
  let (minute, s2) := randomInt 0 59 s1
  (pad2 hour ++ ":" ++ pad2 minute, s2)

/-- Embedding of RandomDataGenerator.randomDateTime. -/
def randomDateTime (s : RS) : String × RS :=
  let (date, s1) := randomRecentDate s
  let (time, s2) := randomTime s1
  (date ++ "T" ++ time, s2)

/-- Embedding of RandomDataGenerator.randomUniversity. -/
def randomUniversity (s : RS) : String × RS :=
  pick ["Stanford University", "MIT", "Harvard University", "UC Berkeley",
        "University of Michigan", "Cornell University", "Yale University",
        "Columbia University", "Princeton University", "University of Texas"] s

/-- Embedding of RandomDataGenerator.randomDegree. -/
def randomDegree (s : RS) : String × RS :=
  pick ["Bachelor of Science", "Bachelor of Arts", "Master of Science",
        "Master of Business Administration", "Master of Arts", "PhD"] s

/-- Embedding of RandomDataGenerator.randomMajor. -/
def randomMajor (s : RS) : String × RS :=
  pick ["Computer Science", "Business Administration", "Engineering",
        "Psychology", "Economics", "Marketing", "Finance", "Biology"] s

/-- Embedding of RandomDataGenerator.randomSalary. -/
def randomSalary (s : RS) : String × RS :=
  let (a, s1) := pick [50000, 60000, 75000, 85000, 100000, 120000, 150000] s
  (toString (a : ℕ), s1)

/-- Embedding of RandomDataGenerator.randomCreditCard. -/
def randomCreditCard (s : RS) : String × RS :=
  let (a, s1) := randomDigits 4 s
  let (b, s2) := randomDigits 4 s1
  let (c, s3) := randomDigits 4 s2
  ("4532 " ++ a ++ " " ++ b ++ " " ++ c, s3)

/-- Embedding of RandomDataGenerator.randomCVV. -/
def randomCVV (s : RS) : String × RS := randomDigits 3 s

/-- Embedding of RandomDataGenerator.randomSSN. -/
def randomSSN (s : RS) : String × RS :=
  let (a, s1) := randomDigits 3 s
  let (b, s2) := randomDigits 2 s1
  let (c, s3) := randomDigits 4 s2
  (a ++ "-" ++ b ++ "-" ++ c, s3)

/-- Embedding of RandomDataGenerator.randomText. -/
def randomText (s : RS) : String × RS :=
  pick ["Experienced professional with a proven track record of success.",
        "Passionate about innovation and delivering exceptional results.",
        "Dedicated team player with excellent communication skills.",
        "Results-driven individual with strong analytical abilities.",
        "Creative problem solver with attention to detail.",
        "Committed to continuous learning and professional development."] s

/-- Embedding of RandomDataGenerator.randomExperience. -/
def randomExperience (s : RS) : String × RS :=
  pick ["5+ years of experience in software development and project management.",
        "Proficient in multiple programming languages including Python, JavaScript, and Java.",
        "Strong background in data analysis and business intelligence.",
        "Experienced in leading cross-functional teams and delivering complex projects.",
        "Skilled in modern development practices and agile methodologies."] s

/-- Embedding of RandomDataGenerator.randomPassword. -/
def randomPassword (s : RS) : String × RS :=
  let (word, s1) := pick ["Test", "Demo", "Sample", "Pass"] s
  let (number, s2) := randomInt 1000 9999 s1
  let (special, s3) := pick ["!", "@", "#", "$"] s2
  (word ++ toString number ++ special, s3)

/-- Embedding of RandomDataGenerator.randomOption: filter blank options,
skip a placeholder-looking first option when another option exists, then
pick uniformly. -/
def randomOption (options : List String) (s : RS) : String × RS :=
  let validOptions := validOptionsOf options
  if validOptions.isEmpty then ("", s)
  else
    if looksPlaceholder (jsToLower (validOptions.headD "")) then
      if decide (validOptions.length > 1) then pick (validOptions.drop 1) s
      else (validOptions.headD "", s)
    else pick validOptions s

/-- Embedding of RandomDataGenerator.randomRating (textual, cumulative thresholds). -/
def randomRating (s : RS) : String × RS :=
  let (q, s1) := RS.next s
  (if q.ltRat 4 10 then "Excellent"
   else if q.ltRat 7 10 then "Great"
   else if q.ltRat 85 100 then "Good"
   else if q.ltRat 95 100 then "Average"
   else "Fair", s1)

/-- Embedding of RandomDataGenerator.randomSatisfaction. -/
def randomSatisfaction (s : RS) : String × RS :=
  let (q, s1) := RS.next s
  if q.ltRat 45 100 then ("Very Satisfied", s1)
  else if q.ltRat 75 100 then ("Satisfied", s1)
  else if q.ltRat 90 100 then ("Neutral", s1)
  else pick ["Dissatisfied", "Very Dissatisfied"] s1

/-- Embedding of RandomDataGenerator.randomYesNo: Yes with probability 0.7. -/
def randomYesNo (s : RS) : String × RS :=
  let (q, s1) := RS.next s
  (if q.ltRat 7 10 then "Yes" else "No", s1)

/-- Embedding of RandomDataGenerator.randomLikertScale. -/
def randomLikertScale (s : RS) : String × RS :=
  let (q, s1) := RS.next s
  (if q.ltRat 35 100 then "Strongly Agree"
   else if q.ltRat 70 100 then "Agree"
   else if q.ltRat 85 100 then "Neutral"
   else if q.ltRat 95 100 then "Disagree"
   else "Strongly Disagree", s1)

/-- Embedding of RandomDataGenerator.randomFrequency. -/
def randomFrequency (s : RS) : String × RS :=
  let (q, s1) := RS.next s
  (if q.ltRat 15 100 then "Always"
   else if q.ltRat 45 100 then "Often"
   else if q.ltRat 75 100 then "Sometimes"
   else if q.ltRat 92 100 then "Rarely"
   else "Never", s1)

/-- Embedding of RandomDataGenerator.randomFeedback. -/
def randomFeedback (s : RS) : String × RS :=
  pick ["Great experience overall! The service was excellent and exceeded my expectations.",
        "Everything went smoothly. Very pleased with the quality and professionalism.",
        "Good service with friendly staff. Would definitely recommend to others.",
        "The product works well and meets my needs. Happy with my purchase.",
        "Overall satisfied with the experience. Minor improvements could be made but nothing major.",
        "Quick and efficient service. Appreciate the attention to detail.",
        "Very responsive team and great communication throughout the process.",
        "The interface is intuitive and easy to use. Makes my work much easier.",
        "Excellent customer support. They resolved my issue promptly.",
        "High quality product and worth the investment. Very satisfied.",
        "The team was helpful and knowledgeable. Great experience from start to finish.",
        "Fast delivery and product was exactly as described. Very happy!",
        "Professional service and attention to customer needs. Will use again.",
        "Everything worked perfectly. No complaints whatsoever.",
        "Impressed with the quality and efficiency. Highly recommend!"] s

/-- Embedding of RandomDataGenerator.randomReason. -/
def randomReason (s : RS) : String × RS :=
  pick ["Looking for information about your products/services",
        "Need assistance with a purchase",
        "General inquiry about your offerings",
        "Interested in learning more about your company",
        "Seeking customer support",
        "Want to provide feedback",
        "Exploring options for a project",
        "Recommended by a friend",
        "Research and comparison shopping",
        "Following up on a previous inquiry"] s

/-- Embedding of RandomDataGenerator.randomSource. -/
def randomSource (s : RS) : String × RS :=
  pick ["Google Search",
        "Friend or Family Recommendation",
        "Social Media (Facebook, Instagram, etc.)",
        "Online Advertisement",
        "Word of Mouth",
        "News Article or Blog",
        "Email Newsletter",
        "YouTube",
        "Review Website",
        "Professional Network (LinkedIn)",
        "Company Website",
        "Trade Show or Event"] s

/-- Embedding of RandomDataGenerator.randomAgeRange. -/
def randomAgeRange (s : RS) : String × RS :=
  let (q, s1) := RS.next s
  if q.ltRat 15 100 then ("18-24", s1)
  else if q.ltRat 40 100 then ("25-34", s1)
  else if q.ltRat 70 100 then ("35-44", s1)
  else if q.ltRat 90 100 then ("45-54", s1)
  else pick ["55-64", "65+"] s1

/-- Embedding of RandomDataGenerator.randomShortFeedback. -/
def randomShortFeedback (s : RS) : String × RS :=
  pick ["Great service!",
        "Very satisfied",
        "Excellent experience",
        "Would recommend",
        "Everything was perfect",
        "No complaints",
        "Good quality",
        "Fast and efficient",
        "Very helpful team",
        "Exceeded expectations"] s

end RandomDataGenerator

/-- Embedding of the FormField entity of the domain layer. The entity
stores exactly these eight members; in particular it has no min or max
member, so property reads of min or max on a FormField yield undefined
in the source. -/
structure FormField where
  id : ℕ
  selector : String
  label : String
  type : String
  placeholder : String
  name : String
  currentValue : String
  options : List String
  deriving DecidableEq, Repr

namespace RandomDataGenerator

/-- Concatenation of lowercased label, name and placeholder, the
combined text that the keyword rules of generate are matched against. -/
def combinedOf (field : FormField) : String :=
  jsToLower field.label ++ " " ++ jsToLower field.name ++ " " ++ jsToLower field.placeholder

/-- Wrap a natural-number draw as a decimal string result. -/
def natStr (p : ℕ × RS) : String × RS := (toString p.1, p.2)

/-- Embedding of RandomDataGenerator.generate: the ordered keyword
dispatch. Notes on undefined members: a FormField has no max member, so
in the rating branch the expression reading max with default 5 yields 5,
and in the range branch parseInt of min with default 0 yields 0 and the
max default yields 100, making the band bounds Math.floor of 100 times
0.6, namely 60, and Math.floor of 100 times 0.9, namely 90 (both products
are exact in double precision). -/
def generate (field : FormField) (s : RS) : String × RS :=
  let combined := combinedOf field
  let type := field.type
  if matchesAny combined ["age", "age range", "age group", "how old"] then
    if (type == "select" || type == "radio") && !field.options.isEmpty then
      randomOption field.options s
    else if type == "number" then natStr (randomInt 18 65 s)
    else randomAgeRange s
  else if matchesAny combined ["gender", "sex", "identify as"] then
    if (type == "select" || type == "radio") && !field.options.isEmpty then
      randomOption field.options s
    else randomGender s
  else if matchesAny combined ["where do you live", "city", "location", "region", "town"] then
    randomCity s
  else if matchesAny combined ["rating", "rate", "stars", "score"] then
    if type == "number" || type == "range" then
      natStr (randomInt (Nat.max 3 (5 - 2)) 5 s)
    else if (type == "select" || type == "radio") && !field.options.isEmpty then
      randomOption field.options s
    else randomRating s
  else if matchesAny combined ["nps", "net promoter", "recommend", "likely to recommend"] then
    natStr (randomInt 7 10 s)
  else if matchesAny combined ["satisfaction", "satisfied", "happy", "pleased"] then
    randomSatisfaction s
  else if matchesAny combined ["yes/no", "yes or no", "agree", "disagree"] then
    randomYesNo s
  else if matchesAny combined ["strongly", "likert", "agreement", "extent"] then
    randomLikertScale s
  else if matchesAny combined ["frequency", "how often", "often do you"] then
    randomFrequency s
  else if matchesAny combined ["feedback", "comment", "suggestion", "thoughts", "opinion",
                            "improve", "tell us", "share", "experience", "additional",
                            "anything else"] then
    if type == "textarea" || matchesAny combined ["long", "detailed", "explain", "describe"] then
      randomFeedback s
    else randomShortFeedback s
  else if matchesAny combined ["reason", "purpose", "why", "what brought"] then
    randomReason s
  else if matchesAny combined ["hear about", "find us", "learn about", "discover"] then
    randomSource s
  else if type == "range" then
    natStr (randomInt 60 90 s)
  else if matchesAny combined ["email", "e-mail", "mail"] || type == "email" then
    randomEmail s
  else if matchesAny combined ["phone", "mobile", "tel", "cell", "contact number"] || type == "tel" then
    randomPhone s
  else if matchesAny combined ["first name", "firstname", "fname", "given name"] then
    randomFirstName s
  else if matchesAny combined ["middle name", "middlename", "mname"] then
    randomMiddleName s
  else if matchesAny combined ["last name", "lastname", "lname", "surname", "family name"] then
    randomLastName s
  else if matchesAny combined ["name", "full name", "fullname", "your name"] &&
          !matchesAny combined ["company", "organization", "user"] then
    randomFullName s
  else if matchesAny combined ["username", "user name", "login", "handle"] then
    randomUsername s
  else if matchesAny combined ["address", "street", "address line 1", "address1"] then
    randomAddress s
  else if matchesAny combined ["address line 2", "address2", "apt", "apartment", "suite", "unit"] then
    randomApartment s
  else if matchesAny combined ["city", "town"] &&
          !matchesAny combined ["where do you live", "location", "region"] then
    randomCity s
  else if matchesAny combined ["state", "province"] &&
          !matchesAny combined ["where do you live", "location"] then
    randomState s
  else if matchesAny combined ["zip", "postal", "postcode", "zip code", "postal code"] then
    randomZip s
  else if matchesAny combined ["country", "nation"] then
    randomCountry s
  else if matchesAny combined ["company", "organization", "employer", "business", "firm"] then
    randomCompany s
  else if matchesAny combined ["job", "title", "position", "occupation", "role", "designation"] then
    randomJobTitle s
  else if matchesAny combined ["department", "dept"] then
    randomDepartment s
  else if matchesAny combined ["website", "site", "homepage"] ||
          (type == "url" && !matchesAny combined ["linkedin", "twitter", "facebook"]) then
    randomWebsite s
  else if matchesAny combined ["linkedin", "linked in"] then
    randomLinkedIn s
  else if matchesAny combined ["twitter"] then
    randomTwitter s
  else if matchesAny combined ["github"] then
    randomGitHub s
  else if matchesAny combined ["age"] then
    natStr (randomInt 18 65 s)
  else if matchesAny combined ["gender", "sex"] then
    randomGender s
  else if matchesAny combined ["birth", "dob", "date of birth", "birthday"] ||
          (type == "date" && matchesAny combined ["birth", "dob"]) then
    randomBirthDate s
  else if type == "date" && !matchesAny combined ["birth", "dob"] then
    randomRecentDate s
  else if type == "time" then
    randomTime s
  else if type == "datetime-local" then
    randomDateTime s
  else if matchesAny combined ["university", "college", "school", "education"] then
    randomUniversity s
  else if matchesAny combined ["degree", "qualification"] then
    randomDegree s
  else if matchesAny combined ["major", "field of study", "specialization"] then
    randomMajor s
  else if matchesAny combined ["salary", "income", "compensation"] then
    randomSalary s
  else if matchesAny combined ["credit card", "card number", "cc"] then
    randomCreditCard s
  else if matchesAny combined ["cvv", "cvc", "security code"] then
    randomCVV s
  else if matchesAny combined ["ssn", "social security"] then
    randomSSN s
  else if matchesAny combined ["message", "comment", "note", "description", "bio", "about", "summary"] then
    randomText s
  else if matchesAny combined ["experience", "skills", "expertise"] then
    randomExperience s
  else if matchesAny combined ["password", "pwd", "pass"] && type == "password" then
    randomPassword s
  else if type == "select" && !field.options.isEmpty then
    randomOption field.options s
  else if type == "checkbox" then
    let (b, s1) := randomBoolean s
    (if b then "true" else "false", s1)
  else if type == "radio" || type == "google-forms-radio" then
    if !field.options.isEmpty then randomOption field.options s
    else ("true", s)
  else if type == "number" then
    if matchesAny combined ["age"] then natStr (randomInt 18 65 s)
    else if matchesAny combined ["year", "yyyy"] then natStr (randomInt 1950 2025 s)
    else if matchesAny combined ["month", "mm"] then natStr (randomInt 1 12 s)
    else if matchesAny combined ["day", "dd"] then natStr (randomInt 1 28 s)
    else if matchesAny combined ["quantity", "qty", "amount"] then natStr (randomInt 1 10 s)
    else if matchesAny combined ["price", "cost"] then natStr (randomInt 10 1000 s)
    else natStr (randomInt 1 100 s)
  else randomText s

end RandomDataGenerator

/-- Raw field data as assembled by DOMFieldExtractor.extractFieldData:
one plain object per detected element, all members strings except
required and options. -/
structure RawField where
  selector : String
  label : String
  ariaLabel : String
  placeholder : String
  name : String
  id : String
  type : String
  value : String
  required : Bool
  options : List String
  deriving DecidableEq, Repr

namespace FormDetector

/-- Embedding of FormDetector.cleanLabel: trim, collapse whitespace,
strip trailing asterisks and colons, trim again. -/
def cleanLabel (label : String) : String :=
  jsTrim (stripTrailingMarks (collapseWs (jsTrim label)))

/-- Capitalisation of one word as in the humanizer: first character
uppercased, the rest lowercased. -/
def capWord (w : String) : String :=
  match w.data with
  | [] => ""
  | c :: cs => String.mk (c.toUpper :: cs.map Char.toLower)

/-- Embedding of FormDetector.humanizeAttributeName: insert a space
before every uppercase letter, turn underscores and hyphens into
spaces, trim, split on spaces, capitalise each word, join with spaces. -/
def humanizeAttributeName (attrName : String) : String :=
  let spaced := (attrName.data.map (fun c => if c.isUpper then [' ', c] else [c])).flatten
  let deSnaked := spaced.map (fun c => if c == '_' || c == '-' then ' ' else c)
  let words := jsSplitSpace (jsTrim (String.mk deSnaked))
  String.intercalate " " (words.map capWord)

/-- Embedding of FormDetector.normalizeType: the literal type map with
default text, applied to the lowercased type. -/
def normalizeType (type : String) : String :=
  let typeMap : List (String × String) :=
    [("text", "text"), ("email", "email"), ("tel", "tel"), ("phone", "tel"),
     ("number", "number"), ("url", "url"), ("date", "date"),
     ("datetime-local", "datetime"), ("time", "time"), ("password", "password"),
     ("search", "text"), ("textarea", "textarea"), ("select", "select"),
     ("select-one", "select"), ("select-multiple", "select-multiple"),
     ("radio", "radio"), ("checkbox", "checkbox")]
  (typeMap.lookup (jsToLower type)).getD "text"

/-- Embedding of FormDetector.extractLabel: label, then aria label, then
placeholder (each cleaned), then humanized name or id, then the generic
Field fallback. A JavaScript truthiness test on a trimmed string is a
test for a nonempty trim. -/
def extractLabel (rawField : RawField) : String :=
  if jsTrim rawField.label != "" then cleanLabel rawField.label
  else if jsTrim rawField.ariaLabel != "" then cleanLabel rawField.ariaLabel
  else if jsTrim rawField.placeholder != "" then cleanLabel rawField.placeholder
  else if jsTrim rawField.name != "" then humanizeAttributeName rawField.name
  else if jsTrim rawField.id != "" then humanizeAttributeName rawField.id
  else "Field " ++ (if rawField.type != "" then rawField.type else "input")

/-- Embedding of FormDetector.createFormField. -/
def createFormField (rawField : RawField) (index : ℕ) : FormField :=
  { id := index
    selector := rawField.selector
    label := extractLabel rawField
    type := normalizeType rawField.type
    placeholder := rawField.placeholder
    name := rawField.name
    currentValue := rawField.value
    options := rawField.options }

/-- Embedding of FormDetector.isValidField: reject password fields, then
fields with a blank selector, then fields with a blank label. -/
def isValidField (field : FormField) : Bool :=
  if field.type == "password" then false
  else if jsTrim field.selector == "" then false
  else if jsTrim field.label == "" then false
  else true

/-- Indexed map as in Array.prototype.map with the index argument. -/
def mapWithIndex (f : RawField → ℕ → FormField) : List RawField → ℕ → List FormField
  | [], _ => []
  | r :: rs, i => f r i :: mapWithIndex f rs (i + 1)

/-- Embedding of FormDetector.processFields: map raw data to entities
with their index, then keep only the valid fields. -/
def processFields (rawFields : List RawField) : List FormField :=
  (mapWithIndex createFormField rawFields 0).filter (fun field => isValidField field)

end FormDetector

/-- One user-defined custom field of a profile. -/
structure CustomField where
  name : String
  value : String
  type : String
  deriving DecidableEq, Repr

/-- Embedding of the UserProfile entity. The id is generated at
construction time in the source; the model carries it explicitly. -/
structure UserProfile where
  id : String
  profileName : String
  isActive : Bool
  name : String
  email : String
  phone : String
  address : String
  company : String
  jobTitle : String
  bio : String
  customFields : List CustomField
  deriving DecidableEq, Repr

/-- Embedding of UserProfile.hasData: some standard attribute nonempty,
or at least one custom field. -/
def UserProfile.hasData (p : UserProfile) : Bool :=
  (p.name != "" || p.email != "" || p.phone != "" || p.address != "" ||
   p.company != "" || p.jobTitle != "" || p.bio != "") ||
  decide (p.customFields.length > 0)

namespace StorageService

/-- Embedding of StorageService.deleteProfile: the stored collection is
replaced by the collection with every profile of the given id removed.
No guard is applied: the filter runs whatever the collection size. -/
def deleteProfile (profiles : List UserProfile) (profileId : String) : List UserProfile :=
  profiles.filter (fun p => p.id != profileId)

/-- Embedding of StorageService.setActiveProfile: every profile made
inactive except the one with the given id. -/
def setActiveProfile (profiles : List UserProfile) (profileId : String) : List UserProfile :=
  profiles.map (fun p => { p with isActive := p.id == profileId })

/-- Embedding of StorageService.getUserProfile applied to an
already-loaded collection: the active profile, else the first, else the
empty default profile. -/
def getUserProfile (profiles : List UserProfile) : UserProfile :=
  match profiles.find? (fun p => p.isActive) with
  | some p => p
  | none =>
    match profiles with
    | p :: _ => p
    | [] => { id := "", profileName := "Default Profile", isActive := false,
              name := "", email := "", phone := "", address := "", company := "",
              jobTitle := "", bio := "", customFields := [] }

end StorageService

/-- Outcome of the options-page delete handler: the stored collection
afterwards, the status message shown, and whether a delete happened. -/
structure DeleteOutcome where
  store : List UserProfile
  status : Option String
  deleted : Bool
  deriving DecidableEq, Repr

/-- Embedding of handleDeleteProfile in the options page: no current
profile is an error; a collection of exactly one profile is refused with
the message about the last profile; an unconfirmed dialog returns
silently; otherwise the profile is deleted through the storage service
and the first remaining profile is made active. -/
def handleDeleteProfile (currentProfile : Option UserProfile)
    (allProfiles : List UserProfile) (confirmed : Bool) : DeleteOutcome :=
  match currentProfile with
  | none => ⟨allProfiles, some "No profile selected", false⟩
  | some cur =>
    if allProfiles.length == 1 then
      ⟨allProfiles, some "Cannot delete the last profile", false⟩
    else if !confirmed then ⟨allProfiles, none, false⟩
    else
      let remaining := StorageService.deleteProfile allProfiles cur.id
      let remaining2 :=
        match remaining with
        | p :: _ => StorageService.setActiveProfile remaining p.id
        | [] => remaining
      ⟨remaining2, some "Profile deleted successfully", true⟩

namespace ProfileFillUseCase

/-- Embedding of ProfileFillUseCase.mapFieldToProfile: first custom
fields (first one whose lowercased name occurs in the lowercased label
or name of the field wins, its value returned verbatim), then the
cascade of semantic rules, each preferring the profile attribute and
falling back to the random generators, and finally the full random
generator for unmatched fields. -/
def mapFieldToProfile (field : FormField) (profile : UserProfile) (s : RS) : String × RS :=
  let label := jsToLower field.label
  let name := jsToLower field.name
  let type := field.type
  let m := fun (keywords : List String) =>
    keywords.any (fun k => strContains label k || strContains name k)
  match profile.customFields.find?
      (fun cf => strContains label (jsToLower cf.name) || strContains name (jsToLower cf.name)) with
  | some cf => (cf.value, s)
  | none =>
    if m ["email", "e-mail"] || type == "email" then
      if profile.email != "" then (profile.email, s) else RandomDataGenerator.randomEmail s
    else if m ["phone", "mobile", "tel", "contact number"] || type == "tel" then
      if profile.phone != "" then (profile.phone, s) else RandomDataGenerator.randomPhone s
    else if m ["address", "street", "location"] then
      if profile.address != "" then (profile.address, s) else RandomDataGenerator.randomAddress s
    else if m ["city", "town"] then
      if profile.address != "" then (profile.address, s) else RandomDataGenerator.randomCity s
    else if m ["state", "province"] then
      RandomDataGenerator.randomState s
    else if m ["zip", "postal", "postcode"] then
      RandomDataGenerator.randomZip s
    else if m ["company", "organization", "employer", "business"] then
      if profile.company != "" then (profile.company, s) else RandomDataGenerator.randomCompany s
    else if m ["title", "position", "role", "job", "occupation"] then
      if profile.jobTitle != "" then (profile.jobTitle, s) else RandomDataGenerator.randomJobTitle s
    else if m ["full name", "fullname", "your name"] then
      if profile.name != "" then (profile.name, s) else RandomDataGenerator.randomFullName s
    else if m ["first name", "firstname", "fname"] then
      if profile.name != "" then ((jsSplitSpace profile.name).headD "", s)
      else RandomDataGenerator.randomFirstName s
    else if m ["last name", "lastname", "surname", "lname"] then
      if profile.name != "" then
        let parts := jsSplitSpace profile.name
        if decide (parts.length > 1) then (parts.getLastD "", s)
        else RandomDataGenerator.randomLastName s
      else RandomDataGenerator.randomLastName s
    else if m ["name"] && !m ["username", "user name"] then
      if profile.name != "" then (profile.name, s) else RandomDataGenerator.randomFullName s
    else if m ["bio", "about", "description", "summary", "profile"] then
      if profile.bio != "" then (profile.bio, s) else RandomDataGenerator.randomText s
    else if field.type == "textarea" then
      if profile.bio != "" then (profile.bio, s) else RandomDataGenerator.randomText s
    else
      RandomDataGenerator.generate field s

/-- Result of a fill use case: success flag, field values keyed by
selector, optional error message. -/
structure FillResult where
  success : Bool
  fieldValues : List (String × String)
  error : Option String
  deriving DecidableEq, Repr

/-- Assignment into a JavaScript object keyed by selector: an existing
key is overwritten, a new key is appended. -/
def putKV (m : List (String × String)) (k v : String) : List (String × String) :=
  if m.any (fun p => p.1 == k) then
    m.map (fun p => if p.1 == k then (k, v) else p)
  else m ++ [(k, v)]

/-- Mapping loop of ProfileFillUseCase.execute: password fields are
skipped, each remaining field is mapped, and only nonempty values are
recorded. -/
def fillLoop (profile : UserProfile) :
    List FormField → List (String × String) → RS → List (String × String)
  | [], acc, _ => acc
  | f :: rest, acc, s =>
    if f.type == "password" then fillLoop profile rest acc s
    else
      let (v, s1) := mapFieldToProfile f profile s
      fillLoop profile rest (if v != "" then putKV acc f.selector v else acc) s1

/-- Embedding of ProfileFillUseCase.execute, with the profile loaded
from storage passed explicitly: an empty field list and a profile
without data are failures caught by the outer handler, which returns an
unsuccessful result with an empty value map and the error message. -/
def execute (fields : List FormField) (profile : UserProfile) (s : RS) : FillResult :=
  if fields.isEmpty then
    { success := false, fieldValues := [], error := some "No fields provided" }
  else if !profile.hasData then
    { success := false, fieldValues := [],
      error := some "No profile data found. Please configure your profile in settings." }
  else
    { success := true, fieldValues := fillLoop profile fields [] s, error := none }

end ProfileFillUseCase

/-- One native radio input of a group, with the pieces of surrounding
markup that the extractor and the injector query for it: the text of a
label pointing at its id, the text of a wrapping label, the text of its
next sibling, plus its value attribute and checked state. -/
structure RadioItem where
  id : String
  value : String
  labelForText : Option String
  wrappingLabelText : Option String
  nextSiblingText : Option String
  checked : Bool
  deriving DecidableEq, Repr

/-- One DOM element together with the results of the document queries
the source performs around it: label texts, uniqueness checks of
candidate selectors, parent and sibling facts, and (for selects and
radios) the option data. The tagName is stored lowercased, as the
source lowercases every tagName read. The visible flag is the
conjunction computed by isVisible (display not none, visibility not
hidden, nonzero bounding box). -/
structure DomElem where
  tagName : String
  id : String
  name : String
  ngModel : String
  formControlName : String
  type : String
  value : String
  placeholder : String
  ariaLabel : String
  required : Bool
  className : String
  dataAttrs : List (String × String)
  visible : Bool
  labelForText : Option String
  wrappingLabelText : Option String
  prevSiblingLabelText : Option String
  parentPrevSiblingLabelText : Option String
  nearbyText : Option String
  nameSelectorUnique : Bool
  dataSelectorUnique : Bool
  classSelectorUnique : Bool
  parentTag : Option String
  sameTagSiblingCount : ℕ
  nthIndex : ℕ
  selectOptionTexts : List String
  radioGroup : List RadioItem
  deriving DecidableEq, Repr

/-- Lowercase hex digit for one value below 16. -/
def hexChar (n : ℕ) : Char := if n < 10 then Char.ofNat (48 + n) else Char.ofNat (87 + n)

/-- Lowercase hexadecimal rendering of a natural number. -/
def toHex (n : ℕ) : String :=
  if _h : n < 16 then String.mk [hexChar n]
  else toHex (n / 16) ++ String.mk [hexChar (n % 16)]
termination_by n
decreasing_by exact Nat.div_lt_self (by omega) (by omega)

/-- Escape of one character of an identifier at position i, following
the serialize-an-identifier algorithm behind CSS.escape. -/
def cssEscapeChar (c : Char) (i : ℕ) (first : Char) (len : ℕ) : String :=
  if c == '\x00' then String.mk ['�']
  else if (1 ≤ c.toNat && c.toNat ≤ 31) || c.toNat == 127 then
    "\\" ++ toHex c.toNat ++ " "
  else if i == 0 && c.isDigit then "\\" ++ toHex c.toNat ++ " "
  else if i == 1 && c.isDigit && first == '-' then "\\" ++ toHex c.toNat ++ " "
  else if i == 0 && c == '-' && len == 1 then "\\-"
  else if c.toNat ≥ 128 || c == '-' || c == '_' || c.isDigit || c.isUpper || c.isLower then
    String.mk [c]
  else "\\" ++ String.mk [c]

/-- Character-wise pass of the CSS.escape embedding. -/
def cssEscapeAux (first : Char) (len : ℕ) : List Char → ℕ → String
  | [], _ => ""
  | c :: cs, i => cssEscapeChar c i first len ++ cssEscapeAux first len cs (i + 1)

/-- Embedding of CSS.escape, used by the selector generator. -/
def cssEscape (s : String) : String :=
  match s.data with
  | [] => ""
  | first :: _ => cssEscapeAux first s.data.length s.data 0

/-- Prefix test as in String.prototype.startsWith. -/
def strStartsWith (s pre : String) : Bool := listStartsWith s.data pre.data

namespace SelectorGenerator

/-- Embedding of SelectorGenerator.tryDataAttributeSelector: the first
data attribute with a nonblank value, rendered as an attribute selector. -/
def tryDataAttributeSelector (e : DomElem) : Option String :=
  let dataAttrs := (e.dataAttrs.filter (fun a => strStartsWith a.1 "data-")).filter
    (fun a => jsTrim a.2 != "")
  match dataAttrs with
  | [] => none
  | attr :: _ => some (e.tagName ++ "[" ++ attr.1 ++ "=\"" ++ cssEscape attr.2 ++ "\"]")

/-- Embedding of SelectorGenerator.tryClassSelector: the first class of
the className attribute with the tag name. -/
def tryClassSelector (e : DomElem) : Option String :=
  let classes := (jsSplitSpace (collapseWs (jsTrim e.className))).filter (fun c => c != "")
  match classes with
  | [] => none
  | c :: _ => some (e.tagName ++ "." ++ cssEscape c)

/-- Embedding of SelectorGenerator.generateNthSelector: parent tag,
child tag, and an nth-of-type index when the element is not the only
child of its tag. -/
def generateNthSelector (e : DomElem) : String :=
  match e.parentTag with
  | none => e.tagName
  | some parent =>
    if e.sameTagSiblingCount == 1 then parent ++ " > " ++ e.tagName
    else parent ++ " > " ++ e.tagName ++ ":nth-of-type(" ++ toString e.nthIndex ++ ")"

/-- Embedding of SelectorGenerator.generate, in the source priority
order: id, unique name selector, unique data-attribute selector, unique
class selector, and the positional fallback. The uniqueness flags stand
for the live isUnique queries of the source. -/
def generate (e : DomElem) : String :=
  if jsTrim e.id != "" then "#" ++ cssEscape e.id
  else if jsTrim e.name != "" && e.nameSelectorUnique then
    e.tagName ++ "[name=\"" ++ cssEscape e.name ++ "\"]"
  else if (tryDataAttributeSelector e).isSome && e.dataSelectorUnique then
    (tryDataAttributeSelector e).getD ""
  else if (tryClassSelector e).isSome && e.classSelectorUnique then
    (tryClassSelector e).getD ""
  else generateNthSelector e

end SelectorGenerator

namespace DOMFieldExtractor

/-- Embedding of DOMFieldExtractor.cleanLabelText: newlines to spaces,
whitespace collapsed, trailing asterisks and colons removed, trimmed,
and capped at 200 characters. -/
def cleanLabelText (text : String) : String :=
  if text == "" then ""
  else
    (jsTrim (stripTrailingMarks (collapseWs
      (String.mk (text.data.map (fun c => if c == '\n' then ' ' else c)))))).take 200

/-- Embedding of DOMFieldExtractor.findNearbyText: the first short text
node under the parent (carried by the element model), cleaned. -/
def findNearbyText (e : DomElem) : String :=
  match e.nearbyText with
  | some t => cleanLabelText t
  | none => cleanLabelText ""

/-- Embedding of DOMFieldExtractor.findLabel, in the source strategy
order: label pointing at the id, wrapping label, preceding sibling
label, label preceding the parent, nearby text, else the empty string. -/
def findLabel (e : DomElem) : String :=
  if e.id != "" && (e.labelForText).isSome then
    cleanLabelText ((e.labelForText).getD "")
  else
    match e.wrappingLabelText with
    | some t => cleanLabelText t
    | none =>
      match e.prevSiblingLabelText with
      | some t => cleanLabelText t
      | none =>
        match e.parentPrevSiblingLabelText with
        | some t => cleanLabelText t
        | none =>
          let nearbyText := findNearbyText e
          if nearbyText != "" then nearbyText else ""

/-- Label of one radio input of a group, as computed inside
DOMFieldExtractor.extractOptions: label pointing at the id, wrapping
label, next sibling text, else the value attribute. -/
def radioOptionLabel (r : RadioItem) : String :=
  let l1 :=
    if r.id != "" then
      match r.labelForText with
      | some t => cleanLabelText t
      | none => ""
    else ""
  let l2 :=
    if l1 != "" then l1
    else
      match r.wrappingLabelText with
      | some t => cleanLabelText t
      | none => ""
  let l3 :=
    if l2 != "" then l2
    else
      match r.nextSiblingText with
      | some t => cleanLabelText t
      | none => ""
  if l3 != "" then l3 else r.value

/-- Embedding of DOMFieldExtractor.extractOptions: trimmed nonempty
option texts for selects, per-radio labels for radio groups, nothing
otherwise. -/
def extractOptions (e : DomElem) : List String :=
  if e.tagName == "select" then
    (e.selectOptionTexts.map jsTrim).filter (fun t => decide (t.length > 0))
  else if e.type == "radio" && e.name != "" then
    (e.radioGroup.map radioOptionLabel).filter (fun t => t != "")
  else []

/-- Embedding of DOMFieldExtractor.extractFieldData: nothing for an
invisible element, else the raw field record; the name falls back to
the ng-model and formcontrolname attributes, and the type falls back to
the tag name. -/
def extractFieldData (e : DomElem) : Option RawField :=
  if !e.visible then none
  else
    some
      { selector := SelectorGenerator.generate e
        label := findLabel e
        ariaLabel := e.ariaLabel
        placeholder := e.placeholder
        name := if e.name != "" then e.name
                else if e.ngModel != "" then e.ngModel
                else e.formControlName
        id := e.id
        type := if e.type != "" then e.type else e.tagName
        value := e.value
        required := e.required
        options := extractOptions e }

/-- The document as the extractor sees it: the three query results. The
inputs list stands for the input query that already excludes hidden,
submit, button, image and reset types. -/
structure DomDoc where
  inputs : List DomElem
  textareas : List DomElem
  selects : List DomElem
  deriving DecidableEq, Repr

/-- Input pass of extractAll, with the processed-radio-group set: the
name of a radio is recorded before its data is extracted, and later
radios of the same name are skipped. -/
def extractInputs : List DomElem → List String → List RawField
  | [], _ => []
  | inp :: rest, seen =>
    if inp.type == "radio" && inp.name != "" then
      if seen.contains inp.name then extractInputs rest seen
      else
        match extractFieldData inp with
        | some fd => fd :: extractInputs rest (inp.name :: seen)
        | none => extractInputs rest (inp.name :: seen)
    else
      match extractFieldData inp with
      | some fd => fd :: extractInputs rest seen
      | none => extractInputs rest seen

/-- Textarea and select passes of extractAll. -/
def extractSimple : List DomElem → List RawField
  | [] => []
  | e :: rest =>
    match extractFieldData e with
    | some fd => fd :: extractSimple rest
    | none => extractSimple rest

/-- Embedding of DOMFieldExtractor.extractAll: inputs (with radio-group
deduplication), then textareas, then selects. -/
def extractAll (doc : DomDoc) : List RawField :=
  extractInputs doc.inputs [] ++ extractSimple doc.textareas ++ extractSimple doc.selects

end DOMFieldExtractor

namespace ExtractFieldsUseCase

/-- Embedding of ExtractFieldsUseCase.execute restricted to its field
output: raw extraction from the document followed by domain processing.
The serialization step toJSON copies the data members unchanged. -/
def execute (doc : DOMFieldExtractor.DomDoc) : List FormField :=
  FormDetector.processFields (DOMFieldExtractor.extractAll doc)

end ExtractFieldsUseCase

/-- One option element of a native select: value attribute, text, and
selected state. -/
structure SelectOption where
  value : String
  text : String
  selected : Bool
  deriving DecidableEq, Repr

/-- One option of a Google Forms ARIA radio group: accessible label,
text content, and checked state. -/
structure GFOpt where
  ariaLabel : String
  text : String
  checked : Bool
  deriving DecidableEq, Repr

/-- Field data handed to the injector alongside a value: whether the
field is a Google Forms radio group, and its container with the ARIA
radio options when the container reference survived. -/
structure FieldDataRec where
  gfRadioGroup : Bool
  container : Option (List GFOpt)
  deriving DecidableEq, Repr

/-- The state of one form control at injection time, keyed by the
dispatch the injector performs on tag name and input type: select,
textarea, checkbox, native radio (with its group as resolved by name),
file input, or any other input treated as text. -/
inductive Control where
  | selectC (options : List SelectOption)
  | textareaC (value : String)
  | checkboxC (checked : Bool)
  | radioC (radioName : String) (selfChecked : Bool) (group : List RadioItem)
  | fileC
  | textC (inputType : String) (value : String)
  deriving DecidableEq, Repr

namespace FieldInjector

/-- First index satisfying a test, the forEach-with-flag pattern of the
source loops. -/
def findIdxA {α : Type} (p : α → Bool) : List α → Option ℕ
  | [] => none
  | a :: rest => if p a then some 0 else (findIdxA p rest).map (· + 1)

/-- Uncheck every radio of a group. -/
def uncheckAll (group : List RadioItem) : List RadioItem :=
  group.map (fun r => { r with checked := false })

/-- Check the radio at one index of a list. -/
def checkIdx : List RadioItem → ℕ → List RadioItem
  | [], _ => []
  | r :: rest, 0 => { r with checked := true } :: rest
  | r :: rest, n + 1 => r :: checkIdx rest n

/-- Uncheck the whole group and check the member at the given index,
the effect of the uncheck-all loop followed by checking the selected
radio. -/
def checkAt (group : List RadioItem) (i : ℕ) : List RadioItem :=
  checkIdx (uncheckAll group) i

/-- Match test of fillRadio for one radio of the group, strategies in
source order: value attribute equality, label-for text containment,
wrapping label containment, next sibling text containment (all
lowercased). -/
def radioMatch (valueLower : String) (r : RadioItem) : Bool :=
  (r.value != "" && jsToLower r.value == valueLower) ||
  (r.id != "" &&
    (match r.labelForText with
     | some t => strContains (jsToLower t) valueLower
     | none => false)) ||
  (match r.wrappingLabelText with
   | some t => strContains (jsToLower t) valueLower
   | none => false) ||
  (match r.nextSiblingText with
   | some t => t != "" && strContains (jsToLower t) valueLower
   | none => false)

/-- Result of filling a native radio group: report flag, checked state
of the lone element when it had no group, the group afterwards, and the
remaining draws. -/
structure RadioOut where
  ok : Bool
  selfChecked : Bool
  group : List RadioItem
  rest : RS
  deriving DecidableEq, Repr

/-- Embedding of FieldInjector.fillRadio: no group name or an empty
group checks the element alone; the generic truthy values pick a random
member; otherwise the first member matched by value, label or sibling
text is checked; with no match a random member is checked instead of
failing. Every path reports success. -/
def fillRadio (radioName : String) (selfChecked : Bool) (group : List RadioItem)
    (value : String) (s : RS) : RadioOut :=
  if radioName == "" then ⟨true, true, group, s⟩
  else if group.length == 0 then ⟨true, true, group, s⟩
  else if value == "true" || value == "1" then
    let (q, s1) := RS.next s
    ⟨true, selfChecked, checkAt group (q.mulFloor group.length), s1⟩
  else
    match findIdxA (radioMatch (jsToLower value)) group with
    | some i => ⟨true, selfChecked, checkAt group i, s⟩
    | none =>
      let (q, s1) := RS.next s
      ⟨true, selfChecked, checkAt group (q.mulFloor group.length), s1⟩

/-- Embedding of FieldInjector.fillSelect: exact value match, exact
trimmed text match, case-insensitive text match, then substring match in
either direction; the first hit is selected, no hit is a failure. -/
def fillSelect (options : List SelectOption) (value : String) : Bool × List SelectOption :=
  let byValue := options.find? (fun opt => opt.value == value)
  let byText := options.find? (fun opt => jsTrim opt.text == jsTrim value)
  let byLowerText := options.find?
    (fun opt => jsTrim (jsToLower opt.text) == jsTrim (jsToLower value))
  let byPartial := options.find?
    (fun opt => strContains (jsToLower opt.text) (jsToLower value) ||
                strContains (jsToLower value) (jsToLower opt.text))
  match byValue.orElse (fun _ => byText) |>.orElse (fun _ => byLowerText) |>.orElse (fun _ => byPartial) with
  | some opt =>
    (true, options.map (fun o => { o with selected := o == opt }))
  | none => (false, options)

/-- Embedding of FieldInjector.fillCheckbox: checked exactly when the
lowercased value is one of the truthy strings. -/
def fillCheckbox (value : String) : Bool :=
  ["true", "yes", "1", "checked", "on"].contains (jsToLower value)

/-- Match test of fillGoogleFormsRadio for one ARIA radio option,
strategies in source order: exact aria-label, exact text, aria-label
containment, text containment (lowercased, text trimmed). -/
def gfMatch (valueLower : String) (o : GFOpt) : Bool :=
  let ariaLabel := jsToLower o.ariaLabel
  let textContent := jsTrim (jsToLower o.text)
  (ariaLabel != "" && ariaLabel == valueLower) ||
  (textContent != "" && textContent == valueLower) ||
  (ariaLabel != "" && strContains ariaLabel valueLower) ||
  (textContent != "" && strContains textContent valueLower)

/-- Embedding of FieldInjector.fillGoogleFormsRadio: a missing container
fails; a matched option is clicked; with no match a random option is
clicked when any exists, else failure. -/
def fillGoogleFormsRadio (fieldData : FieldDataRec) (value : String) (s : RS) : Bool × RS :=
  match fieldData.container with
  | none => (false, s)
  | some radioOptions =>
    match findIdxA (gfMatch (jsToLower value)) radioOptions with
    | some _ => (true, s)
    | none =>
      if decide (radioOptions.length > 0) then
        let (_, s1) := RS.next s
        (true, s1)
      else (false, s)

/-- Result of one setFieldValue call: report flag, the element state
afterwards when an element was resolved, and the remaining draws. -/
structure SetFieldOut where
  ok : Bool
  elem : Option Control
  rest : RS
  deriving DecidableEq, Repr

/-- Embedding of FieldInjector.safeQuery over a document modelled as an
association of selectors to controls: a blank selector resolves to
nothing, otherwise the bound control if any. -/
def safeQuery (doc : List (String × Control)) (selector : String) : Option Control :=
  if selector == "" then none else doc.lookup selector

/-- Embedding of FieldInjector.setFieldValue: the Google Forms branch
runs first when the field data carries the group flag; otherwise the
element is resolved, a missing element or a missing value fails, and
the per-kind fill runs (file inputs always fail). Every error path of
the source is caught and reported as false, so the embedding is a total
function into Bool. -/
def setFieldValue (doc : List (String × Control)) (selector : String)
    (value : Option String) (fieldData : Option FieldDataRec) (s : RS) : SetFieldOut :=
  match fieldData with
  | some fd =>
    if fd.gfRadioGroup then
      match value with
      | none => ⟨false, none, s⟩
      | some v =>
        let (ok, s1) := fillGoogleFormsRadio fd v s
        ⟨ok, none, s1⟩
    else
      match safeQuery doc selector with
      | none => ⟨false, none, s⟩
      | some ctl =>
        match value with
        | none => ⟨false, some ctl, s⟩
        | some v => fillResolved ctl v s
  | none =>
    match safeQuery doc selector with
    | none => ⟨false, none, s⟩
    | some ctl =>
      match value with
      | none => ⟨false, some ctl, s⟩
      | some v => fillResolved ctl v s
where
  /-- Dispatch of setFieldValue over the resolved element. -/
  fillResolved (ctl : Control) (v : String) (s : RS) : SetFieldOut :=
    match ctl with
    | .selectC options =>
      let (ok, options1) := fillSelect options v
      ⟨ok, some (.selectC options1), s⟩
    | .textareaC _ => ⟨true, some (.textareaC v), s⟩
    | .checkboxC _ => ⟨true, some (.checkboxC (fillCheckbox v)), s⟩
    | .radioC radioName selfChecked group =>
      let r := fillRadio radioName selfChecked group v s
      ⟨r.ok, some (.radioC radioName r.selfChecked r.group), r.rest⟩
    | .fileC => ⟨false, some .fileC, s⟩
    | .textC inputType _ => ⟨true, some (.textC inputType v), s⟩

/-- Aggregate result of fillMultipleFields. -/
structure MultiResult where
  success : List (String × Option String)
  failed : List (String × Option String)
  total : ℕ
  successCount : ℕ
  failedCount : ℕ
  deriving DecidableEq, Repr

/-- Lookup of the optional field data for one selector, the indexing of
the fieldsData object of the source. -/
def lookupFieldData (fieldsData : Option (List (String × FieldDataRec)))
    (selector : String) : Option FieldDataRec :=
  match fieldsData with
  | none => none
  | some m => m.lookup selector

/-- Replace the state of the control bound to a selector. -/
def docUpdate (doc : List (String × Control)) (selector : String) (ctl : Control) :
    List (String × Control) :=
  doc.map (fun p => if p.1 == selector then (p.1, ctl) else p)

/-- Embedding of FieldInjector.fillMultipleFields: every entry of the
value map is attempted once, counted into the success or failed lists,
and the totals incremented accordingly. -/
def fillMultipleFields (doc : List (String × Control))
    (fieldsData : Option (List (String × FieldDataRec))) :
    List (String × Option String) → RS → MultiResult × List (String × Control) × RS
  | [], s => (⟨[], [], 0, 0, 0⟩, doc, s)
  | (selector, value) :: rest, s =>
    let fieldData := lookupFieldData fieldsData selector
    let out := setFieldValue doc selector value fieldData s
    let doc1 := match out.elem with
      | some ctl => docUpdate doc selector ctl
      | none => doc
    let rest1 := fillMultipleFields doc1 fieldsData rest out.rest
    let r := rest1.1
    if out.ok then
      (⟨(selector, value) :: r.success, r.failed, r.total + 1, r.successCount + 1, r.failedCount⟩,
       rest1.2.1, rest1.2.2)
    else
      (⟨r.success, (selector, value) :: r.failed, r.total + 1, r.successCount, r.failedCount + 1⟩,
       rest1.2.1, rest1.2.2)

end FieldInjector


/-! Supporting lemmas about the randomness primitives. -/

theorem Frac.den_pos {q : Frac} (h : q.valid) : 0 < q.den :=
  Nat.lt_of_le_of_lt (Nat.zero_le _) h

theorem Frac.mulFloor_lt {q : Frac} {n : ℕ} (hq : q.valid) (hn : 0 < n) :
    q.mulFloor n < n := by
  unfold Frac.mulFloor
  rw [Nat.div_lt_iff_lt_mul (Frac.den_pos hq)]
  calc q.num * n < q.den * n := (Nat.mul_lt_mul_right hn).mpr hq
    _ = n * q.den := Nat.mul_comm _ _

theorem validRS_next {s : RS} (h : validRS s) :
    (RS.next s).1.valid ∧ validRS (RS.next s).2 := by
  cases s with
  | nil => exact ⟨Nat.zero_lt_one, by intro q hq; cases hq⟩
  | cons q qs =>
    exact ⟨h q (List.mem_cons_self _ _), fun p hp => h p (List.mem_cons_of_mem _ hp)⟩

theorem pick_mem {α : Type} [Inhabited α] {arr : List α} {s : RS}
    (harr : arr ≠ []) (hs : validRS s) :
    (RandomDataGenerator.pick arr s).1 ∈ arr := by
  have hq := (validRS_next hs).1
  rcases hnext : RS.next s with ⟨q, s1⟩
  rw [hnext] at hq
  have hlen : 0 < arr.length := List.length_pos.mpr harr
  have hidx : q.mulFloor arr.length < arr.length := Frac.mulFloor_lt hq hlen
  simp only [RandomDataGenerator.pick, hnext]
  simp only [List.getD_eq_getElem?_getD, List.getElem?_eq_getElem hidx, Option.getD_some]
  exact List.getElem_mem _

theorem randomInt_bounds {lo hi : ℕ} {s : RS} (hle : lo ≤ hi) (hs : validRS s) :
    lo ≤ (RandomDataGenerator.randomInt lo hi s).1 ∧
    (RandomDataGenerator.randomInt lo hi s).1 ≤ hi := by
  have hq := (validRS_next hs).1
  rcases hnext : RS.next s with ⟨q, s1⟩
  rw [hnext] at hq
  have hlt : q.mulFloor (hi - lo + 1) < hi - lo + 1 := Frac.mulFloor_lt hq (by omega)
  simp only [RandomDataGenerator.randomInt, hnext]
  constructor
  · omega
  · omega

theorem validOptionsOf_subset {options : List String} :
    ∀ x ∈ validOptionsOf options, x ∈ options :=
  fun _x hx => (List.mem_filter.mp hx).1

theorem randomOption_mem {options : List String} {s : RS}
    (hvalid : validOptionsOf options ≠ []) (hs : validRS s) :
    (RandomDataGenerator.randomOption options s).1 ∈ options := by
  simp only [RandomDataGenerator.randomOption]
  split_ifs with h1 h2 h3
  · exact absurd (List.isEmpty_iff.mp h1) hvalid
  · have h3' : 1 < (validOptionsOf options).length := by simpa using h3
    have hdrop : (validOptionsOf options).drop 1 ≠ [] := by
      intro hd
      have hlen := List.length_drop 1 (validOptionsOf options)
      rw [hd] at hlen
      simp at hlen
      omega
    exact validOptionsOf_subset _ (List.drop_subset _ _ (pick_mem hdrop hs))
  · cases hvo : validOptionsOf options with
    | nil => exact absurd hvo hvalid
    | cons a l =>
      simp only [hvo, List.headD_cons]
      exact validOptionsOf_subset a (by rw [hvo]; exact List.mem_cons_self _ _)
  · exact validOptionsOf_subset _ (pick_mem hvalid hs)

theorem randomOption_placeholder_skip {options : List String} {s : RS}
    (hph : looksPlaceholder (jsToLower ((validOptionsOf options).headD "")) = true)
    (hlen : 1 < (validOptionsOf options).length) (hs : validRS s) :
    (RandomDataGenerator.randomOption options s).1 ∈ (validOptionsOf options).drop 1 := by
  have hvalid : validOptionsOf options ≠ [] := by
    intro h
    rw [h] at hlen
    simp at hlen
  have hie : (validOptionsOf options).isEmpty = false := by
    cases hvo : validOptionsOf options with
    | nil => exact absurd hvo hvalid
    | cons a l => rfl
  have hdrop : (validOptionsOf options).drop 1 ≠ [] := by
    intro hd
    have hl := List.length_drop 1 (validOptionsOf options)
    rw [hd] at hl
    simp at hl
    omega
  simp only [RandomDataGenerator.randomOption, hie, Bool.false_eq_true, if_false, hph,
    if_true]
  rw [if_pos (by simpa using hlen)]
  exact pick_mem hdrop hs

/-- With the concrete age-range option list of the scenario, randomOption
always reduces to a pick among the three genuine ranges. -/
theorem randomOption_age_scenario (s : RS) :
    RandomDataGenerator.randomOption ["Select...", "18-24", "25-34", "35-44"] s =
    RandomDataGenerator.pick ["18-24", "25-34", "35-44"] s := rfl

/-! Supporting lemmas about the form detector. -/

theorem isValidField_not_password {f : FormField}
    (h : FormDetector.isValidField f = true) : f.type ≠ "password" := by
  intro hp
  unfold FormDetector.isValidField at h
  rw [hp] at h
  simp at h

theorem processFields_valid {rawFields : List RawField} {f : FormField}
    (h : f ∈ FormDetector.processFields rawFields) :
    FormDetector.isValidField f = true :=
  (List.mem_filter.mp h).2

/-! Supporting lemmas about the field injector. -/

/-- Number of checked radios in a group. -/
def countChecked (group : List RadioItem) : ℕ :=
  (group.filter (fun r => r.checked)).length

theorem findIdxA_lt {α : Type} {p : α → Bool} : ∀ {l : List α} {i : ℕ},
    FieldInjector.findIdxA p l = some i → i < l.length := by
  intro l
  induction l with
  | nil => intro i h; simp [FieldInjector.findIdxA] at h
  | cons a rest ih =>
    intro i h
    simp only [FieldInjector.findIdxA] at h
    by_cases hp : p a = true
    · rw [if_pos hp] at h
      cases h
      simp
    · rw [if_neg hp] at h
      cases hrec : FieldInjector.findIdxA p rest with
      | none => rw [hrec] at h; simp at h
      | some j =>
        rw [hrec] at h
        simp at h
        have hj := ih hrec
        simp only [List.length_cons]
        omega

theorem uncheckAll_unchecked (group : List RadioItem) :
    ∀ r ∈ FieldInjector.uncheckAll group, r.checked = false := by
  intro r hr
  unfold FieldInjector.uncheckAll at hr
  obtain ⟨x, _, hx⟩ := List.mem_map.mp hr
  rw [← hx]

theorem countChecked_checkIdx : ∀ (l : List RadioItem) (i : ℕ),
    (∀ r ∈ l, r.checked = false) → i < l.length →
    countChecked (FieldInjector.checkIdx l i) = 1 := by
  intro l
  induction l with
  | nil => intro i _ h; simp at h
  | cons a rest ih =>
    intro i hall hi
    cases i with
    | zero =>
      have hrest : rest.filter (fun r => r.checked) = [] := by
        rw [List.filter_eq_nil_iff]
        intro r hr
        simp [hall r (List.mem_cons_of_mem _ hr)]
      simp [FieldInjector.checkIdx, countChecked, List.filter_cons, hrest]
    | succ n =>
      have ha : a.checked = false := hall a (List.mem_cons_self _ _)
      have := ih n (fun r hr => hall r (List.mem_cons_of_mem _ hr)) (by simpa using hi)
      simp only [FieldInjector.checkIdx, countChecked, List.filter_cons, ha] at *
      simpa using this

theorem countChecked_checkAt {group : List RadioItem} {i : ℕ} (hi : i < group.length) :
    countChecked (FieldInjector.checkAt group i) = 1 := by
  unfold FieldInjector.checkAt
  apply countChecked_checkIdx
  · exact uncheckAll_unchecked group
  · unfold FieldInjector.uncheckAll
    simpa using hi

/-! Concrete objects used by witnesses. -/

/-- A DOM element with neutral attributes, to be specialised per witness. -/
def blankElem : DomElem :=
  { tagName := "input", id := "", name := "", ngModel := "", formControlName := "",
    type := "", value := "", placeholder := "", ariaLabel := "", required := false,
    className := "", dataAttrs := [], visible := true, labelForText := none,
    wrappingLabelText := none, prevSiblingLabelText := none,
    parentPrevSiblingLabelText := none, nearbyText := none,
    nameSelectorUnique := false, dataSelectorUnique := false, classSelectorUnique := false,
    parentTag := none, sameTagSiblingCount := 1, nthIndex := 1,
    selectOptionTexts := [], radioGroup := [] }

/-- A document holding one visible email-labelled text input. -/
def c1Doc : DOMFieldExtractor.DomDoc :=
  { inputs := [{ blankElem with id := "email", type := "text", labelForText := some "Email" }],
    textareas := [], selects := [] }

/-- A store holding exactly one profile. -/
def soloProfile : UserProfile :=
  { id := "profile_1", profileName := "Default Profile", isActive := true,
    name := "Ada Lovelace", email := "", phone := "", address := "", company := "",
    jobTitle := "", bio := "", customFields := [] }

/-- A form field labelled Employee ID Number. -/
def empField : FormField := ⟨0, "#emp", "Employee ID Number", "text", "", "", "", []⟩

/-- A profile whose only data is the Employee ID custom field. -/
def empProfile : UserProfile :=
  { id := "profile_2", profileName := "Work", isActive := true, name := "", email := "",
    phone := "", address := "", company := "", jobTitle := "", bio := "",
    customFields := [⟨"Employee ID", "12345", "text"⟩] }

/-- A profile with no standard attribute and no custom field. -/
def noDataProfile : UserProfile :=
  { id := "profile_3", profileName := "Empty", isActive := true, name := "", email := "",
    phone := "", address := "", company := "", jobTitle := "", bio := "",
    customFields := [] }

/-! Claim theorems. -/

/-- C1: every Field produced by the extraction pipeline (raw DOM
extraction, then domain processing as orchestrated by
ExtractFieldsUseCase.execute) has a type different from password: the
validity filter drops every field whose normalized type is password. -/
theorem extraction_pipeline_never_surfaces_password (doc : DOMFieldExtractor.DomDoc)
    (f : FormField) (hf : f ∈ ExtractFieldsUseCase.execute doc) : f.type ≠ "password" :=
  isValidField_not_password (processFields_valid hf)

/-- Witness for C1 at a concrete document: the pipeline yields the email
field, and the theorem applies to it. -/
theorem extraction_pipeline_never_surfaces_password_witness :
    (⟨0, "#email", "Email", "text", "", "", "", []⟩ : FormField) ∈
      ExtractFieldsUseCase.execute c1Doc ∧
    (⟨0, "#email", "Email", "text", "", "", "", []⟩ : FormField).type ≠ "password" :=
  ⟨by decide, extraction_pipeline_never_surfaces_password c1Doc _ (by decide)⟩

/-- C2 counterexample: the storage-level deleteProfile applied to a
store holding exactly one profile is not rejected: it empties the
collection, so the stored collection does not still contain the
profile. -/
theorem storage_delete_removes_last_profile :
    StorageService.deleteProfile [soloProfile] soloProfile.id = [] ∧
    StorageService.deleteProfile [soloProfile] soloProfile.id ≠ [soloProfile] := by
  constructor
  · rfl
  · decide

/-- C2 as amended: the last-profile rejection lives in the options page
handler, not in the storage service: with exactly one profile in the
collection, handleDeleteProfile reports the cannot-delete error and
leaves the collection unchanged, whatever the confirmation. -/
theorem options_delete_rejects_last_profile (cur : UserProfile)
    (profiles : List UserProfile) (confirmed : Bool) (h : profiles.length = 1) :
    handleDeleteProfile (some cur) profiles confirmed =
      ⟨profiles, some "Cannot delete the last profile", false⟩ := by
  simp [handleDeleteProfile, h]

/-- Witness for the amended C2 at a concrete one-profile store. -/
theorem options_delete_rejects_last_profile_witness :
    handleDeleteProfile (some soloProfile) [soloProfile] true =
      ⟨[soloProfile], some "Cannot delete the last profile", false⟩ :=
  options_delete_rejects_last_profile soloProfile [soloProfile] true (by decide)

/-- C3: when some custom field of the profile matches the field (its
lowercased name occurs in the lowercased label or name), the profile
mapper returns the value of the first such custom field verbatim,
independently of the random source — no built-in rule and no random
generator is consulted. -/
theorem profile_mapper_custom_field_first_match (field : FormField) (profile : UserProfile)
    (s : RS) (cf : CustomField)
    (h : profile.customFields.find? (fun cf =>
        strContains (jsToLower field.label) (jsToLower cf.name) ||
        strContains (jsToLower field.name) (jsToLower cf.name)) = some cf) :
    ProfileFillUseCase.mapFieldToProfile field profile s = (cf.value, s) := by
  simp only [ProfileFillUseCase.mapFieldToProfile]
  rw [h]

/-- Witness for C3: the Employee ID scenario, where the profile has data
and the mapper yields exactly 12345. -/
theorem profile_mapper_custom_field_first_match_witness :
    empProfile.hasData = true ∧
    ProfileFillUseCase.mapFieldToProfile empField empProfile [] = ("12345", []) :=
  ⟨by decide,
   profile_mapper_custom_field_first_match empField empProfile []
     ⟨"Employee ID", "12345", "text"⟩ (by decide)⟩

/-- C8: with a nonempty field list and an active profile without data,
the profile fill fails with the no-profile-data error and an empty
value map: no random fallback is substituted. -/
theorem profile_fill_fails_without_profile_data (fields : List FormField)
    (profile : UserProfile) (s : RS) (hne : fields ≠ []) (hd : profile.hasData = false) :
    ProfileFillUseCase.execute fields profile s =
      { success := false, fieldValues := [],
        error := some "No profile data found. Please configure your profile in settings." } := by
  have hf : fields.isEmpty = false := by
    cases fields with
    | nil => exact absurd rfl hne
    | cons a l => rfl
  simp [ProfileFillUseCase.execute, hf, hd]

/-- Witness for C8 at a concrete field list and empty profile. -/
theorem profile_fill_fails_without_profile_data_witness :
    ProfileFillUseCase.execute [empField] noDataProfile [] =
      { success := false, fieldValues := [],
        error := some "No profile data found. Please configure your profile in settings." } :=
  profile_fill_fails_without_profile_data [empField] noDataProfile [] (by decide) (by decide)

/-- An age select whose only option is whitespace. -/
def blankOptionField : FormField := ⟨0, "#age", "Age", "select", "", "", "", [" "]⟩

/-- An age select with the scenario options. -/
def ageSelectField : FormField :=
  ⟨0, "#agegroup", "Age", "select", "", "", "", ["Select...", "18-24", "25-34", "35-44"]⟩

/-- A range field with no survey keyword in its metadata. -/
def volumeField : FormField := ⟨0, "#vol", "Volume", "range", "", "", "", []⟩

/-- An NPS-labelled text field. -/
def npsField : FormField :=
  ⟨0, "#nps", "How likely are you to recommend us", "text", "", "", "", []⟩

/-- C4 counterexample: a select on the age keyword path with a nonempty
options list consisting of one whitespace option makes the generator
return the empty string, which is not a member of the options list. -/
theorem generator_blank_options_not_member :
    (RandomDataGenerator.generate blankOptionField [⟨1, 2⟩]).1 ∉ blankOptionField.options := by
  decide

/-- C4 as amended: for a select or radio field on the age keyword path
whose options include at least one nonblank entry, the generated value
is a member of the options list; and when the options are exactly the
scenario list, the value is never the placeholder first option. -/
theorem generator_age_options_pick (field : FormField) (s : RS)
    (htype : field.type = "select" ∨ field.type = "radio")
    (hkw : RandomDataGenerator.matchesAny (RandomDataGenerator.combinedOf field)
      ["age", "age range", "age group", "how old"] = true)
    (hvalid : validOptionsOf field.options ≠ []) (hs : validRS s) :
    (RandomDataGenerator.generate field s).1 ∈ field.options ∧
    (looksPlaceholder (jsToLower ((validOptionsOf field.options).headD "")) = true →
      1 < (validOptionsOf field.options).length →
      (RandomDataGenerator.generate field s).1 ∈ (validOptionsOf field.options).drop 1) ∧
    (field.options = ["Select...", "18-24", "25-34", "35-44"] →
      (RandomDataGenerator.generate field s).1 ≠ "Select...") := by
  have hne : field.options ≠ [] := by
    intro h
    rw [h] at hvalid
    simp [validOptionsOf] at hvalid
  have hie : field.options.isEmpty = false := by
    cases ho : field.options with
    | nil => exact absurd ho hne
    | cons a l => rfl
  have hgen : RandomDataGenerator.generate field s =
      RandomDataGenerator.randomOption field.options s := by
    rcases htype with h | h <;> simp [RandomDataGenerator.generate, hkw, h, hie]
  refine ⟨?_, ?_, ?_⟩
  · rw [hgen]
    exact randomOption_mem hvalid hs
  · intro hph hlen
    rw [hgen]
    exact randomOption_placeholder_skip hph hlen hs
  · intro hopts
    rw [hgen, hopts, randomOption_age_scenario]
    have hmem := pick_mem (show ["18-24", "25-34", "35-44"] ≠ [] by decide) hs
    intro heq
    rw [heq] at hmem
    exact absurd hmem (by decide)

/-- Witness for the amended C4 at the scenario select and a concrete
draw: the value is among the options and is not the placeholder. -/
theorem generator_age_options_pick_witness :
    (RandomDataGenerator.generate ageSelectField [⟨1, 2⟩]).1 ∈ ageSelectField.options ∧
    (looksPlaceholder (jsToLower ((validOptionsOf ageSelectField.options).headD "")) = true →
      1 < (validOptionsOf ageSelectField.options).length →
      (RandomDataGenerator.generate ageSelectField [⟨1, 2⟩]).1 ∈
        (validOptionsOf ageSelectField.options).drop 1) ∧
    (ageSelectField.options = ["Select...", "18-24", "25-34", "35-44"] →
      (RandomDataGenerator.generate ageSelectField [⟨1, 2⟩]).1 ≠ "Select...") :=
  generator_age_options_pick ageSelectField [⟨1, 2⟩] (Or.inl rfl) (by decide) (by decide)
    (by decide)

/-- C5: a field whose combined metadata contains an NPS keyword and
matches none of the four earlier rules (age, gender, location, rating)
generates the decimal string of an integer between 7 and 10. -/
theorem generator_nps_band (field : FormField) (s : RS)
    (h1 : RandomDataGenerator.matchesAny (RandomDataGenerator.combinedOf field)
      ["age", "age range", "age group", "how old"] = false)
    (h2 : RandomDataGenerator.matchesAny (RandomDataGenerator.combinedOf field)
      ["gender", "sex", "identify as"] = false)
    (h3 : RandomDataGenerator.matchesAny (RandomDataGenerator.combinedOf field)
      ["where do you live", "city", "location", "region", "town"] = false)
    (h4 : RandomDataGenerator.matchesAny (RandomDataGenerator.combinedOf field)
      ["rating", "rate", "stars", "score"] = false)
    (h5 : RandomDataGenerator.matchesAny (RandomDataGenerator.combinedOf field)
      ["nps", "net promoter", "recommend", "likely to recommend"] = true)
    (hs : validRS s) :
    ∃ n, (RandomDataGenerator.generate field s).1 = toString n ∧ 7 ≤ n ∧ n ≤ 10 := by
  have hgen : RandomDataGenerator.generate field s =
      RandomDataGenerator.natStr (RandomDataGenerator.randomInt 7 10 s) := by
    simp [RandomDataGenerator.generate, h1, h2, h3, h4, h5]
  obtain ⟨hlo, hhi⟩ := randomInt_bounds (show 7 ≤ 10 by omega) hs
  exact ⟨(RandomDataGenerator.randomInt 7 10 s).1, by rw [hgen]; rfl, hlo, hhi⟩

/-- Witness for C5 at the scenario label and a concrete draw. -/
theorem generator_nps_band_witness :
    ∃ n, (RandomDataGenerator.generate npsField [⟨1, 2⟩]).1 = toString n ∧ 7 ≤ n ∧ n ≤ 10 :=
  generator_nps_band npsField [⟨1, 2⟩] (by decide) (by decide) (by decide) (by decide)
    (by decide) (by decide)

/-- C6: a range field matching none of the survey keyword rules
generates the decimal string of an integer between 60 and 90 (the upper
band of the default bounds 0 and 100, the bounds the generator always
uses since a FormField carries no min or max member). -/
theorem generator_range_band (field : FormField) (s : RS)
    (h1 : RandomDataGenerator.matchesAny (RandomDataGenerator.combinedOf field)
      ["age", "age range", "age group", "how old"] = false)
    (h2 : RandomDataGenerator.matchesAny (RandomDataGenerator.combinedOf field)
      ["gender", "sex", "identify as"] = false)
    (h3 : RandomDataGenerator.matchesAny (RandomDataGenerator.combinedOf field)
      ["where do you live", "city", "location", "region", "town"] = false)
    (h4 : RandomDataGenerator.matchesAny (RandomDataGenerator.combinedOf field)
      ["rating", "rate", "stars", "score"] = false)
    (h5 : RandomDataGenerator.matchesAny (RandomDataGenerator.combinedOf field)
      ["nps", "net promoter", "recommend", "likely to recommend"] = false)
    (h6 : RandomDataGenerator.matchesAny (RandomDataGenerator.combinedOf field)
      ["satisfaction", "satisfied", "happy", "pleased"] = false)
    (h7 : RandomDataGenerator.matchesAny (RandomDataGenerator.combinedOf field)
      ["yes/no", "yes or no", "agree", "disagree"] = false)
    (h8 : RandomDataGenerator.matchesAny (RandomDataGenerator.combinedOf field)
      ["strongly", "likert", "agreement", "extent"] = false)
    (h9 : RandomDataGenerator.matchesAny (RandomDataGenerator.combinedOf field)
      ["frequency", "how often", "often do you"] = false)
    (h10 : RandomDataGenerator.matchesAny (RandomDataGenerator.combinedOf field)
      ["feedback", "comment", "suggestion", "thoughts", "opinion", "improve", "tell us",
       "share", "experience", "additional", "anything else"] = false)
    (h11 : RandomDataGenerator.matchesAny (RandomDataGenerator.combinedOf field)
      ["reason", "purpose", "why", "what brought"] = false)
    (h12 : RandomDataGenerator.matchesAny (RandomDataGenerator.combinedOf field)
      ["hear about", "find us", "learn about", "discover"] = false)
    (htype : field.type = "range") (hs : validRS s) :
    ∃ n, (RandomDataGenerator.generate field s).1 = toString n ∧ 60 ≤ n ∧ n ≤ 90 := by
  have hgen : RandomDataGenerator.generate field s =
      RandomDataGenerator.natStr (RandomDataGenerator.randomInt 60 90 s) := by
    simp [RandomDataGenerator.generate, h1, h2, h3, h4, h5, h6, h7, h8, h9, h10, h11, h12,
      htype]
  obtain ⟨hlo, hhi⟩ := randomInt_bounds (show 60 ≤ 90 by omega) hs
  exact ⟨(RandomDataGenerator.randomInt 60 90 s).1, by rw [hgen]; rfl, hlo, hhi⟩

/-- Witness for C6 at a concrete range field and draw. -/
theorem generator_range_band_witness :
    ∃ n, (RandomDataGenerator.generate volumeField [⟨1, 2⟩]).1 = toString n ∧
    60 ≤ n ∧ n ≤ 90 :=
  generator_range_band volumeField [⟨1, 2⟩] (by decide) (by decide) (by decide) (by decide)
    (by decide) (by decide) (by decide) (by decide) (by decide) (by decide) (by decide)
    (by decide) rfl (by decide)

/-- Specification of fillRadio on a named, nonempty group: it always
reports success and leaves exactly one member checked. -/
theorem fillRadio_spec (radioName : String) (selfChecked : Bool) (group : List RadioItem)
    (v : String) (s : RS) (hname : radioName ≠ "") (hgroup : group ≠ []) (hs : validRS s) :
    (FieldInjector.fillRadio radioName selfChecked group v s).ok = true ∧
    countChecked (FieldInjector.fillRadio radioName selfChecked group v s).group = 1 := by
  have hpos : 0 < group.length := List.length_pos.mpr hgroup
  have hnb : (radioName == "") = false := beq_eq_false_iff_ne.mpr hname
  have hlen0 : (group.length == 0) = false := beq_eq_false_iff_ne.mpr hpos.ne'
  have hq := (validRS_next hs).1
  rcases hnext : RS.next s with ⟨q, s1⟩
  rw [hnext] at hq
  unfold FieldInjector.fillRadio
  rw [hnb, hlen0]
  simp only [Bool.false_eq_true, if_false]
  by_cases hv : (v == "true" || v == "1") = true
  · rw [if_pos hv]
    simp only [hnext]
    exact ⟨by trivial, countChecked_checkAt (Frac.mulFloor_lt hq hpos)⟩
  · rw [if_neg hv]
    cases hfi : FieldInjector.findIdxA (FieldInjector.radioMatch (jsToLower v)) group with
    | some i =>
      simp only [hfi]
      exact ⟨by trivial, countChecked_checkAt (findIdxA_lt hfi)⟩
    | none =>
      simp only [hfi, hnext]
      exact ⟨by trivial, countChecked_checkAt (Frac.mulFloor_lt hq hpos)⟩

/-- C7: setFieldValue on a native radio whose name resolves to a
nonempty group reports success for every string value, and afterwards
exactly one member of the group is checked — an unmatched value falls
back to a random member instead of failing. -/
theorem injector_radio_fill_succeeds (doc : List (String × Control)) (selector v : String)
    (s : RS) (radioName : String) (selfChecked : Bool) (group : List RadioItem)
    (hq : FieldInjector.safeQuery doc selector =
      some (Control.radioC radioName selfChecked group))
    (hname : radioName ≠ "") (hgroup : group ≠ []) (hs : validRS s) :
    ∃ sc2 g2 s2,
      FieldInjector.setFieldValue doc selector (some v) none s =
        ⟨true, some (Control.radioC radioName sc2 g2), s2⟩ ∧ countChecked g2 = 1 := by
  obtain ⟨hok, hcount⟩ := fillRadio_spec radioName selfChecked group v s hname hgroup hs
  refine ⟨(FieldInjector.fillRadio radioName selfChecked group v s).selfChecked,
    (FieldInjector.fillRadio radioName selfChecked group v s).group,
    (FieldInjector.fillRadio radioName selfChecked group v s).rest, ?_, hcount⟩
  simp only [FieldInjector.setFieldValue, hq, FieldInjector.setFieldValue.fillResolved, hok]

/-- Witness for C7: a two-member group, an unmatched value, success and
one checked member. -/
theorem injector_radio_fill_succeeds_witness :
    ∃ sc2 g2 s2,
      FieldInjector.setFieldValue
        [("#r", Control.radioC "grp" false
          [⟨"", "alpha", none, none, none, false⟩, ⟨"", "beta", none, none, none, false⟩])]
        "#r" (some "unmatched value") none [⟨1, 2⟩] =
        ⟨true, some (Control.radioC "grp" sc2 g2), s2⟩ ∧ countChecked g2 = 1 :=
  injector_radio_fill_succeeds _ "#r" "unmatched value" [⟨1, 2⟩] "grp" false
    [⟨"", "alpha", none, none, none, false⟩, ⟨"", "beta", none, none, none, false⟩]
    (by decide) (by decide) (by decide) (by decide)

/-- A document holding one visible input with the id x and a label
pointing at it reading Email. -/
def c9Doc (t : String) : DOMFieldExtractor.DomDoc :=
  { inputs := [{ blankElem with id := "x", type := t, labelForText := some "Email" }],
    textareas := [], selects := [] }

/-- C9: the extraction pipeline on a document holding exactly one
visible input with id x, of type text or email, labelled through a
label-for element reading Email, returns exactly one Field: label
Email, kind equal to the type attribute, selector the id selector. -/
theorem extraction_single_labeled_input (t : String) (ht : t = "text" ∨ t = "email") :
    ExtractFieldsUseCase.execute (c9Doc t) = [⟨0, "#x", "Email", t, "", "", "", []⟩] := by
  rcases ht with h | h <;> subst h <;> decide

/-- Witness for C9 at the text type. -/
theorem extraction_single_labeled_input_witness :
    ExtractFieldsUseCase.execute (c9Doc "text") = [⟨0, "#x", "Email", "text", "", "", "", []⟩] :=
  extraction_single_labeled_input "text" (Or.inl rfl)

/-- C10: setFieldValue is a total function that reports false on a
missing value whatever the document, selector and field data; and
fillMultipleFields counts every entry exactly once: the total is the
number of entries, the success and failed lists partition them, and the
counters match the list lengths. -/
theorem injector_batch_accounting :
    (∀ (doc : List (String × Control)) (selector : String) (fd : Option FieldDataRec)
       (s : RS), (FieldInjector.setFieldValue doc selector none fd s).ok = false) ∧
    (∀ (doc : List (String × Control)) (fieldsData : Option (List (String × FieldDataRec)))
       (entries : List (String × Option String)) (s : RS),
      (FieldInjector.fillMultipleFields doc fieldsData entries s).1.total = entries.length ∧
      (FieldInjector.fillMultipleFields doc fieldsData entries s).1.successCount +
        (FieldInjector.fillMultipleFields doc fieldsData entries s).1.failedCount =
        (FieldInjector.fillMultipleFields doc fieldsData entries s).1.total ∧
      (FieldInjector.fillMultipleFields doc fieldsData entries s).1.success.length =
        (FieldInjector.fillMultipleFields doc fieldsData entries s).1.successCount ∧
      (FieldInjector.fillMultipleFields doc fieldsData entries s).1.failed.length =
        (FieldInjector.fillMultipleFields doc fieldsData entries s).1.failedCount) := by
  constructor
  · intro doc selector fd s
    cases fd with
    | none =>
      simp only [FieldInjector.setFieldValue]
      cases hsq : FieldInjector.safeQuery doc selector <;> simp [hsq]
    | some f =>
      simp only [FieldInjector.setFieldValue]
      by_cases hgf : f.gfRadioGroup = true
      · simp [hgf]
      · simp only [Bool.not_eq_true] at hgf
        simp only [hgf, Bool.false_eq_true, if_false]
        cases hsq : FieldInjector.safeQuery doc selector <;> simp [hsq]
  · intro doc fieldsData entries s
    induction entries generalizing doc s with
    | nil => simp [FieldInjector.fillMultipleFields]
    | cons e rest ih =>
      obtain ⟨sel, v⟩ := e
      rcases hsv : FieldInjector.setFieldValue doc sel v
          (FieldInjector.lookupFieldData fieldsData sel) s with ⟨ok, elem, rest1⟩
      simp only [FieldInjector.fillMultipleFields, hsv]
      cases elem with
      | none =>
        obtain ⟨iht, ihc, ihs2, ihf⟩ := ih doc rest1
        cases ok <;> simp <;> omega
      | some ctl =>
        obtain ⟨iht, ihc, ihs2, ihf⟩ := ih (FieldInjector.docUpdate doc sel ctl) rest1
        cases ok <;> simp <;> omega
